import Mathlib

/-!
Shallow embedding of the ChichiTk widget library (src/chichitk/buttons.py and
src/chichitk/pdf_display.py), restricted to the state, color-table and
rendering logic that the specification's claims are about.  GUI framework
calls (packing, tkinter configuration, image recoloring pixels) are modelled
only insofar as they carry state or emit observable callbacks.
-/

namespace chichitk

/-! ## Button color tables (buttons.py, BaseButton.__init__ lines 84-91)

Python stores the colors in 2x2 lists indexed `[selected][hovering]` with
`False = 0`, `True = 1`.  We keep them as `List (List String)` so that
lookup is the fallible list indexing the source uses, and totality of the
color lookup is a real statement (`Option.isSome`) rather than a triviality.
-/

/-- Arguments of `BaseButton.__init__` that feed the color tables, with the
Python default values.  Parameters the caller may pass as `None` are
`Option String`. -/
structure ButtonColorArgs where
  active_bg : String := "#070708"
  inactive_bg : String := "#000000"
  active_hover_bg : Option String := none
  inactive_hover_bg : Option String := none
  active_fg : String := "#13ce12"
  inactive_fg : String := "#888888"
  active_hover_fg : Option String := some "#74d573"
  inactive_hover_fg : Option String := some "#74d573"
  active_bar_color : Option String := none
  inactive_bar_color : Option String := none
  active_hover_bar_color : Option String := none
  inactive_hover_bar_color : Option String := some "#dcdcdc"
  off_fg : String := "#555555"
deriving DecidableEq

/-- Python `x if x else d` for an optional string `x`: `None` and the empty
string are falsy, anything else is returned unchanged. -/
def pyOr (x : Option String) (d : String) : String :=
  match x with
  | some s => if s.length = 0 then d else s
  | none => d

/-- `self.bg_colors` as built on lines 84-85 of buttons.py. -/
def mkBgColors (a : ButtonColorArgs) : List (List String) :=
  [[a.inactive_bg, pyOr a.inactive_hover_bg a.inactive_bg],
   [a.active_bg, pyOr a.active_hover_bg a.active_bg]]

/-- `self.fg_colors` as built on lines 86-87 of buttons.py. -/
def mkFgColors (a : ButtonColorArgs) : List (List String) :=
  [[a.inactive_fg, pyOr a.inactive_hover_fg a.inactive_fg],
   [a.active_fg, pyOr a.active_hover_fg a.active_fg]]

/-- `self.bar_colors` as built on lines 88-91 of buttons.py: the non-hover
bar colors default to `active_fg` resp. `inactive_bg`, and the hover bar
colors default to the (already defaulted) non-hover bar colors. -/
def mkBarColors (a : ButtonColorArgs) : List (List String) :=
  let active_bar := pyOr a.active_bar_color a.active_fg
  let inactive_bar := pyOr a.inactive_bar_color a.inactive_bg
  [[inactive_bar, pyOr a.inactive_hover_bar_color inactive_bar],
   [active_bar, pyOr a.active_hover_bar_color active_bar]]

/-- Python list indexing by a boolean: `False` is 0, `True` is 1. -/
def boolIdx (b : Bool) : Nat := if b then 1 else 0

/-- Fallible lookup `table[selected][hovering]` in a 2x2 color table. -/
def tableGet (t : List (List String)) (selected hovering : Bool) : Option String :=
  match t.get? (boolIdx selected) with
  | some row => row.get? (boolIdx hovering)
  | none => none

/-- `IconButton.config_colors` (buttons.py lines 206-216), restricted to the
(background, foreground, bar color) triple it selects: when the button is
active the three 2x2 tables are indexed by `[selected][hovering]`; when
inactive the fixed triple `(bg_colors[0][0], off_fg, bg_colors[0][0])` is
used.  `none` would mean an out-of-range table access. -/
def config_colors (a : ButtonColorArgs) (selected hovering active : Bool) :
    Option (String × String × String) :=
  if active then
    match tableGet (mkBgColors a) selected hovering,
          tableGet (mkFgColors a) selected hovering,
          tableGet (mkBarColors a) selected hovering with
    | some bg, some fg, some bar => some (bg, fg, bar)
    | _, _, _ => none
  else
    match tableGet (mkBgColors a) false false with
    | some bg => some (bg, a.off_fg, bg)
    | none => none

/-! ## BaseButton event/state machine (buttons.py lines 75-165)

The mutable booleans of a `BaseButton` (`selected`, `hovering`, `active`)
together with the constructor flags that gate the transitions
(`selectable`, `select_on_click`, whether a `popup_label` was given).
Each event handler returns the updated state together with the ordered
list of side effects it performs (user callback, tooltip fade, color
reconfiguration). -/
structure ButtonState where
  selected : Bool
  hovering : Bool
  active : Bool
  selectable : Bool
  select_on_click : Bool
  has_popup : Bool
deriving DecidableEq, Fintype

/-- Observable side effects of the BaseButton event handlers.
`userCommand` is the click callback `self.click_command()`;
`toggleCommand b` is `self.toggle_command(b)` of the toggle buttons;
the tooltip fades and `config_colors` are internal widget work. -/
inductive Effect where
  | userCommand : Effect
  | toggleCommand : Bool → Effect
  | tooltipFadein : Bool → Effect
  | tooltipFadeout : Effect
  | configColorsCall : Effect
deriving DecidableEq

/-- Effects that invoke a caller-supplied callback. -/
def Effect.isUserCallback : Effect → Bool
  | .userCommand => true
  | .toggleCommand _ => true
  | _ => false

/-- `BaseButton.hover_enter` (lines 135-141): if not already hovering, set
`hovering = True`, fade the tooltip in (labelled by `popup_labels[self.active]`)
when a popup label exists, and reconfigure colors only when active. -/
def hover_enter (s : ButtonState) : ButtonState × List Effect :=
  if s.hovering then (s, [])
  else
    ({ s with hovering := true },
     (if s.has_popup then [Effect.tooltipFadein s.active] else []) ++
     (if s.active then [Effect.configColorsCall] else []))

/-- `BaseButton.hover_leave` (lines 143-149). -/
def hover_leave (s : ButtonState) : ButtonState × List Effect :=
  if s.hovering then
    ({ s with hovering := false },
     (if s.has_popup then [Effect.tooltipFadeout] else []) ++
     (if s.active then [Effect.configColorsCall] else []))
  else (s, [])

/-- `BaseButton.select` (lines 157-160): only a selectable, not yet
selected button becomes selected. -/
def select (s : ButtonState) : ButtonState × List Effect :=
  if s.selectable && !s.selected then
    ({ s with selected := true }, [Effect.configColorsCall])
  else (s, [])

/-- `BaseButton.deselect` (lines 162-165). -/
def deselect (s : ButtonState) : ButtonState × List Effect :=
  if s.selected then
    ({ s with selected := false }, [Effect.configColorsCall])
  else (s, [])

/-- `BaseButton.click_button` (lines 151-155): only when active, call the
click command and then, if `select_on_click`, `select()`. -/
def click_button (s : ButtonState) : ButtonState × List Effect :=
  if s.active then
    if s.select_on_click then
      let r := select s
      (r.1, Effect.userCommand :: r.2)
    else (s, [Effect.userCommand])
  else (s, [])

/-- `BaseButton.turn_on` (lines 127-129). -/
def turn_on (s : ButtonState) : ButtonState × List Effect :=
  ({ s with active := true }, [Effect.configColorsCall])

/-- `BaseButton.turn_off` (lines 131-133). -/
def turn_off (s : ButtonState) : ButtonState × List Effect :=
  ({ s with active := false }, [Effect.configColorsCall])

/-- `ToggleIconButton.click` / `ToggleLabelButton.click` (lines 252-257 and
416-421): flip `selected`, reconfigure colors, then pass the new status to
the toggle callback. -/
def toggle_click (s : ButtonState) : ButtonState × List Effect :=
  ({ s with selected := !s.selected },
   [Effect.configColorsCall, Effect.toggleCommand (!s.selected)])

/-- The operations of the button state machine. -/
inductive ButtonOp where
  | hoverEnter : ButtonOp
  | hoverLeave : ButtonOp
  | clickButton : ButtonOp
  | opSelect : ButtonOp
  | opDeselect : ButtonOp
  | turnOn : ButtonOp
  | turnOff : ButtonOp
  | toggleClick : ButtonOp
deriving DecidableEq, Fintype

/-- Dispatch of the button operations. -/
def step (s : ButtonState) : ButtonOp → ButtonState × List Effect
  | .hoverEnter => hover_enter s
  | .hoverLeave => hover_leave s
  | .clickButton => click_button s
  | .opSelect => select s
  | .opDeselect => deselect s
  | .turnOn => turn_on s
  | .turnOff => turn_off s
  | .toggleClick => toggle_click s

/-! ## DoubleIconButton and CheckButton (buttons.py lines 259-376) -/

/-- Which of the two inner IconButtons is currently packed (visible). -/
inductive ShownButton where
  | button1 : ShownButton
  | button2 : ShownButton
deriving DecidableEq, Fintype

/-- State of a `DoubleIconButton`: the private `__double_status` flag
(False when Button1 is active, True when Button2 is active, line 277) and
which button is currently packed (Button1 initially, line 283). -/
structure DoubleState where
  double_status : Bool
  shown : ShownButton
deriving DecidableEq, Fintype

/-- The two user commands of a `DoubleIconButton`. -/
inductive DCall where
  | command1 : DCall
  | command2 : DCall
deriving DecidableEq, Fintype

/-- State of a freshly constructed `DoubleIconButton` (lines 275-283). -/
def doubleInitState : DoubleState :=
  { double_status := false, shown := ShownButton.button1 }

/-- `DoubleIconButton.switch1` (lines 285-298): status false, Button2
unpacked, Button1 packed; no command is called. -/
def switch1 (_s : DoubleState) : DoubleState :=
  { double_status := false, shown := ShownButton.button1 }

/-- `DoubleIconButton.switch2` (lines 300-313). -/
def switch2 (_s : DoubleState) : DoubleState :=
  { double_status := true, shown := ShownButton.button2 }

/-- `DoubleIconButton.click1` (lines 315-328): `switch2()` then
`command1()`.  The returned list records each user command called, paired
with the state of the widget at the moment it is invoked. -/
def click1 (s : DoubleState) : DoubleState × List (DCall × DoubleState) :=
  let s1 := switch2 s
  (s1, [(DCall.command1, s1)])

/-- `DoubleIconButton.click2` (lines 330-343): `switch1()` then
`command2()`. -/
def click2 (s : DoubleState) : DoubleState × List (DCall × DoubleState) :=
  let s1 := switch1 s
  (s1, [(DCall.command2, s1)])

/-- `DoubleIconButton.get` (lines 345-347). -/
def get (s : DoubleState) : Bool := s.double_status

/-- Operations of the `DoubleIconButton` state machine. -/
inductive DoubleOp where
  | opSwitch1 : DoubleOp
  | opSwitch2 : DoubleOp
  | opClick1 : DoubleOp
  | opClick2 : DoubleOp
deriving DecidableEq, Fintype

/-- Dispatch of the `DoubleIconButton` operations (switches call no user
command). -/
def dstep (s : DoubleState) : DoubleOp → DoubleState × List (DCall × DoubleState)
  | .opSwitch1 => (switch1 s, [])
  | .opSwitch2 => (switch2 s, [])
  | .opClick1 => click1 s
  | .opClick2 => click2 s

/-- The C9 invariant: the status flag is true exactly when Button2 is the
displayed button. -/
def statusMatchesShown (s : DoubleState) : Prop :=
  s.double_status = true ↔ s.shown = ShownButton.button2

instance (s : DoubleState) : Decidable (statusMatchesShown s) := by
  unfold statusMatchesShown
  infer_instance

/-- `CheckButton.__init__` (buttons.py lines 353-376) passes
`lambda: command(True)` as command1 and `lambda: command(False)` as
command2 to `DoubleIconButton`, so the user callback argument is determined
by which inner command fires. -/
def checkButtonCommandArg : DCall → Bool
  | .command1 => true
  | .command2 => false

/-- The BaseButton state of `Button1` of a freshly constructed
`DoubleIconButton` (line 279: `selectable=False`, all other flags default:
not selected, not hovering, active, `select_on_click=True`; CheckButton
passes `popup_label1=inactive_popup_label`, by default none). -/
def checkButtonButton1 : ButtonState :=
  { selected := false, hovering := false, active := true,
    selectable := false, select_on_click := true, has_popup := false }

/-- `Button1.click_button()` of a DoubleIconButton: `BaseButton.click_button`
(lines 151-155) specialised to Button1, whose `click_command` is
`DoubleIconButton.click1`.  When Button1 is active the click command runs on
the double-button state and then, since `select_on_click` holds,
`select()` runs on Button1's own state. -/
def button1_click_button (bs : ButtonState) (ds : DoubleState) :
    ButtonState × DoubleState × List (DCall × DoubleState) :=
  if bs.active then
    let r := click1 ds
    if bs.select_on_click then ((select bs).1, r.1, r.2)
    else (bs, r.1, r.2)
  else (bs, ds, [])

/-- `CheckButton.__init__` (lines 353-376): construct the underlying
`DoubleIconButton` (Button1 = unchecked box, Button2 = checked box), then,
if the `active` argument is true, simulate a click of Button1
(`self.Button1.click_button()`, line 375-376).  Returns Button1's base
state, the double-button state, and the ordered list of boolean arguments
passed to the user command. -/
def checkButtonInit (active : Bool) : ButtonState × DoubleState × List Bool :=
  if active then
    let r := button1_click_button checkButtonButton1 doubleInitState
    (r.1, r.2.1, r.2.2.map fun c => checkButtonCommandArg c.1)
  else (checkButtonButton1, doubleInitState, [])

/-! ## PdfDisplay (pdf_display.py)

A pdf document is a list of pages, abstracted as natural-number page ids;
the file system is a map from filenames to documents.  A rendered page
image is the pair of the page and the dpi it was rasterised at
(`dpi=int(72 * self.zoom_fact * self.scale_fact)`, line 103), so two
renders at different scale factors yield distinct images.  Widget plumbing
(scrollbars, text box, button placement) carries no state the claims need
and is omitted. -/

/-- Python `int()` applied to a rational: truncation toward zero. -/
def pyInt (q : ℚ) : ℤ :=
  if 0 ≤ q then ⌊q⌋ else -⌊-q⌋

/-- State of a `PdfDisplay` (fields set in `__init__`, lines 34-42, plus
`self.filename`, set in `show_pdf`). -/
structure PdfState where
  zoom_fact : ℚ
  scale_fact : ℚ
  img_object_list : List (Nat × ℤ)
  filename : String
  active : Bool
deriving DecidableEq

/-- The dpi used to rasterise each page (line 103). -/
def dpi (s : PdfState) : ℤ :=
  pyInt (72 * s.zoom_fact * s.scale_fact)

/-- `PdfDisplay.remove_all` (lines 82-88): clears the active flag and
destroys the pdf frame widget; the image list is NOT touched here. -/
def remove_all (s : PdfState) : PdfState :=
  { s with active := false }

/-- `PdfDisplay.render_pdf` (lines 98-132): reset `self.img_object_list` to
the empty list, then append one image per page of the document at
`self.filename`, rasterised at the current dpi. -/
def render_pdf (fs : String → List Nat) (s : PdfState) : PdfState :=
  { s with img_object_list := (fs s.filename).map fun p => (p, dpi s) }

/-- `PdfDisplay.show_pdf` (lines 90-96): reset the scale factor to 1, store
the filename, `remove_all`, set active, then render.  (Line 96 actually
runs `render_pdf()` on the calling thread; see `thread_start_trace`.) -/
def show_pdf (fs : String → List Nat) (s : PdfState) (filename : String) : PdfState :=
  let s1 := { s with scale_fact := 1, filename := filename }
  let s2 := { remove_all s1 with active := true }
  render_pdf fs s2

/-- `PdfDisplay.zoom_in` (lines 140-145): multiply the scale factor by 1.1,
`remove_all`, set active, re-render. -/
def zoom_in (fs : String → List Nat) (s : PdfState) : PdfState :=
  let s1 := { s with scale_fact := s.scale_fact * (11 / 10 : ℚ) }
  let s2 := { remove_all s1 with active := true }
  render_pdf fs s2

/-- `PdfDisplay.zoom_out` (lines 147-152): divide the scale factor by 1.1,
`remove_all`, set active, re-render. -/
def zoom_out (fs : String → List Nat) (s : PdfState) : PdfState :=
  let s1 := { s with scale_fact := s.scale_fact / (11 / 10 : ℚ) }
  let s2 := { remove_all s1 with active := true }
  render_pdf fs s2

/-- The two threads relevant to `Thread(target=self.render_pdf()).start()`
(pdf_display.py lines 96, 145 and 152). -/
inductive ExecThread where
  | caller : ExecThread
  | worker : ExecThread
deriving DecidableEq, Fintype

/-- What each thread does during that statement. -/
inductive PdfAction where
  | renderPages : PdfAction
  | threadNoop : PdfAction
deriving DecidableEq, Fintype

/-- Execution trace of `Thread(target=self.render_pdf()).start()`: the
argument expression `self.render_pdf()` is evaluated eagerly on the calling
thread, performing all page rendering there and returning `None`; the
`Thread` is then started with target `None`, so the spawned worker thread
performs no work at all. -/
def thread_start_trace : List (ExecThread × PdfAction) :=
  [(ExecThread.caller, PdfAction.renderPages),
   (ExecThread.worker, PdfAction.threadNoop)]

end chichitk

/-- C1: the button color lookup is total: for every button color
configuration and for each of the 8 combinations of (selected, hovering,
active), `config_colors` produces a defined (background, foreground,
bar-color) triple, and each of the three 2x2 tables is defined at all four
(selected, hovering) pairs. -/
theorem chichitk.C1_config_colors_total (a : chichitk.ButtonColorArgs) :
    (∀ selected hovering active : Bool,
      (chichitk.config_colors a selected hovering active).isSome = true) ∧
    (∀ selected hovering : Bool,
      (chichitk.tableGet (chichitk.mkBgColors a) selected hovering).isSome = true ∧
      (chichitk.tableGet (chichitk.mkFgColors a) selected hovering).isSome = true ∧
      (chichitk.tableGet (chichitk.mkBarColors a) selected hovering).isSome = true) := by
  refine ⟨?_, ?_⟩
  · intro selected hovering active
    cases selected <;> cases hovering <;> cases active <;> rfl
  · intro selected hovering
    cases selected <;> cases hovering <;> exact ⟨rfl, rfl, rfl⟩

/-- C4 counterexample: an inactive button does NOT ignore input entirely.
In the concrete state (selected=false, hovering=false, active=false,
selectable=true, select_on_click=true, no popup), a pointer-enter event
still flips the `hovering` flag from false to true, contradicting the claim
that the state (selected, hovering) is unchanged when active=false. -/
theorem chichitk.C4_counterexample :
    (chichitk.ButtonState.mk false false false true true false).active = false ∧
    (chichitk.ButtonState.mk false false false true true false).hovering = false ∧
    (chichitk.step (chichitk.ButtonState.mk false false false true true false)
      chichitk.ButtonOp.hoverEnter).1.hovering = true := by
  decide

/-- C4 amended: when a button's active flag is false, a click calls no user
callback and leaves the state entirely unchanged; pointer-enter and
pointer-leave events likewise invoke no user callback and leave `selected`
unchanged, but they still update the `hovering` flag (enter sets it true,
leave sets it false). -/
theorem chichitk.C4_inactive_input (s : chichitk.ButtonState)
    (h : s.active = false) :
    chichitk.step s chichitk.ButtonOp.clickButton = (s, []) ∧
    (∀ e ∈ (chichitk.step s chichitk.ButtonOp.hoverEnter).2, e.isUserCallback = false) ∧
    (∀ e ∈ (chichitk.step s chichitk.ButtonOp.hoverLeave).2, e.isUserCallback = false) ∧
    (chichitk.step s chichitk.ButtonOp.hoverEnter).1.selected = s.selected ∧
    (chichitk.step s chichitk.ButtonOp.hoverLeave).1.selected = s.selected ∧
    (chichitk.step s chichitk.ButtonOp.hoverEnter).1.hovering = true ∧
    (chichitk.step s chichitk.ButtonOp.hoverLeave).1.hovering = false := by
  revert h
  revert s
  decide

/-- Witness for C4 amended at the concrete inactive state of the
counterexample. -/
theorem chichitk.C4_inactive_input_witness :
    (chichitk.ButtonState.mk false false false true true false).active = false ∧
    (chichitk.step (chichitk.ButtonState.mk false false false true true false)
        chichitk.ButtonOp.clickButton =
      (chichitk.ButtonState.mk false false false true true false, []) ∧
    (∀ e ∈ (chichitk.step (chichitk.ButtonState.mk false false false true true false)
        chichitk.ButtonOp.hoverEnter).2, e.isUserCallback = false) ∧
    (∀ e ∈ (chichitk.step (chichitk.ButtonState.mk false false false true true false)
        chichitk.ButtonOp.hoverLeave).2, e.isUserCallback = false) ∧
    (chichitk.step (chichitk.ButtonState.mk false false false true true false)
        chichitk.ButtonOp.hoverEnter).1.selected =
      (chichitk.ButtonState.mk false false false true true false).selected ∧
    (chichitk.step (chichitk.ButtonState.mk false false false true true false)
        chichitk.ButtonOp.hoverLeave).1.selected =
      (chichitk.ButtonState.mk false false false true true false).selected ∧
    (chichitk.step (chichitk.ButtonState.mk false false false true true false)
        chichitk.ButtonOp.hoverEnter).1.hovering = true ∧
    (chichitk.step (chichitk.ButtonState.mk false false false true true false)
        chichitk.ButtonOp.hoverLeave).1.hovering = false) :=
  ⟨by decide,
   chichitk.C4_inactive_input (chichitk.ButtonState.mk false false false true true false)
     (by decide)⟩

/-- C5: the hovering flag is toggled exactly by the pointer enter and leave
events: after a pointer-enter event `hovering = true`, after a pointer-leave
event `hovering = false`, and every other button operation leaves the
hovering flag unchanged. -/
theorem chichitk.C5_hovering_toggled_by_enter_leave :
    ∀ s : chichitk.ButtonState,
      (chichitk.step s chichitk.ButtonOp.hoverEnter).1.hovering = true ∧
      (chichitk.step s chichitk.ButtonOp.hoverLeave).1.hovering = false ∧
      (∀ op : chichitk.ButtonOp, op ≠ chichitk.ButtonOp.hoverEnter →
        op ≠ chichitk.ButtonOp.hoverLeave →
        (chichitk.step s op).1.hovering = s.hovering) := by
  decide

/-- C6: the selected flag is a persistent boolean toggle: `select()` sets it
to true when the button is selectable, `deselect()` sets it to false, and
pointer-enter and pointer-leave events leave it unchanged. -/
theorem chichitk.C6_selected_persistent (s : chichitk.ButtonState)
    (hsel : s.selectable = true) :
    (chichitk.step s chichitk.ButtonOp.opSelect).1.selected = true ∧
    (chichitk.step s chichitk.ButtonOp.opDeselect).1.selected = false ∧
    (chichitk.step s chichitk.ButtonOp.hoverEnter).1.selected = s.selected ∧
    (chichitk.step s chichitk.ButtonOp.hoverLeave).1.selected = s.selected := by
  revert hsel
  revert s
  decide

/-- Witness for C6 at a concrete selectable state. -/
theorem chichitk.C6_selected_persistent_witness :
    (chichitk.ButtonState.mk false true true true true false).selectable = true ∧
    ((chichitk.step (chichitk.ButtonState.mk false true true true true false)
        chichitk.ButtonOp.opSelect).1.selected = true ∧
    (chichitk.step (chichitk.ButtonState.mk false true true true true false)
        chichitk.ButtonOp.opDeselect).1.selected = false ∧
    (chichitk.step (chichitk.ButtonState.mk false true true true true false)
        chichitk.ButtonOp.hoverEnter).1.selected =
      (chichitk.ButtonState.mk false true true true true false).selected ∧
    (chichitk.step (chichitk.ButtonState.mk false true true true true false)
        chichitk.ButtonOp.hoverLeave).1.selected =
      (chichitk.ButtonState.mk false true true true true false).selected) :=
  ⟨by decide,
   chichitk.C6_selected_persistent (chichitk.ButtonState.mk false true true true true false)
     (by decide)⟩

/-- C9: every `DoubleIconButton` operation preserves the correspondence
between the status flag and the visible button (`get()` is false exactly
when Button1 is displayed and true exactly when Button2 is displayed):
switch1 and click2 leave the status false with Button1 shown, switch2 and
click1 leave it true with Button2 shown, and click1/click2 invoke their
user command only after the switch, in the post-switch state. -/
theorem chichitk.C9_double_button_invariant :
    ∀ s : chichitk.DoubleState,
      (∀ op : chichitk.DoubleOp,
        chichitk.statusMatchesShown (chichitk.dstep s op).1 ∧
        (chichitk.get (chichitk.dstep s op).1 = false ↔
          (chichitk.dstep s op).1.shown = chichitk.ShownButton.button1)) ∧
      (chichitk.get (chichitk.dstep s chichitk.DoubleOp.opSwitch1).1 = false ∧
        (chichitk.dstep s chichitk.DoubleOp.opSwitch1).1.shown = chichitk.ShownButton.button1) ∧
      (chichitk.get (chichitk.dstep s chichitk.DoubleOp.opClick2).1 = false ∧
        (chichitk.dstep s chichitk.DoubleOp.opClick2).1.shown = chichitk.ShownButton.button1) ∧
      (chichitk.get (chichitk.dstep s chichitk.DoubleOp.opSwitch2).1 = true ∧
        (chichitk.dstep s chichitk.DoubleOp.opSwitch2).1.shown = chichitk.ShownButton.button2) ∧
      (chichitk.get (chichitk.dstep s chichitk.DoubleOp.opClick1).1 = true ∧
        (chichitk.dstep s chichitk.DoubleOp.opClick1).1.shown = chichitk.ShownButton.button2) ∧
      (chichitk.dstep s chichitk.DoubleOp.opClick1).2 =
        [(chichitk.DCall.command1, (chichitk.dstep s chichitk.DoubleOp.opClick1).1)] ∧
      (chichitk.dstep s chichitk.DoubleOp.opClick2).2 =
        [(chichitk.DCall.command2, (chichitk.dstep s chichitk.DoubleOp.opClick2).1)] ∧
      (chichitk.dstep s chichitk.DoubleOp.opSwitch1).2 = [] ∧
      (chichitk.dstep s chichitk.DoubleOp.opSwitch2).2 = [] := by
  decide

/-- C10: constructing a `CheckButton` with `active = true` simulates a click
of the unchecked Button1 during construction, so the user callback is
invoked exactly once, with argument `true`, and the checked button (Button2)
ends up displayed with status true; constructing with `active = false`
invokes no callback and leaves the fresh DoubleIconButton state (Button1
displayed, status false). -/
theorem chichitk.C10_check_button_init :
    (chichitk.checkButtonInit true).2.2 = [true] ∧
    (chichitk.checkButtonInit true).2.1.shown = chichitk.ShownButton.button2 ∧
    chichitk.get (chichitk.checkButtonInit true).2.1 = true ∧
    (chichitk.checkButtonInit false).2.2 = [] ∧
    (chichitk.checkButtonInit false).2.1 = chichitk.doubleInitState := by
  decide

/-- C2: every re-render discards all prior page images before building new
ones: the result of `render_pdf` does not depend on the previous
`img_object_list`, the new list is exactly one image per page of the
current document at the current dpi, and every image in it was produced by
this render. -/
theorem chichitk.C2_render_discards_prior (fs : String → List Nat)
    (s : chichitk.PdfState) (l : List (Nat × ℤ)) :
    chichitk.render_pdf fs { s with img_object_list := l } =
      chichitk.render_pdf fs s ∧
    (chichitk.render_pdf fs s).img_object_list =
      (fs s.filename).map (fun p => (p, chichitk.dpi s)) ∧
    (∀ img ∈ (chichitk.render_pdf fs s).img_object_list,
      ∃ p ∈ fs s.filename, img = (p, chichitk.dpi s)) := by
  refine ⟨rfl, rfl, ?_⟩
  intro img h
  simp only [chichitk.render_pdf, List.mem_map] at h
  obtain ⟨p, hp, h⟩ := h
  exact ⟨p, hp, h.symm⟩

/-- C3: `zoom_in` multiplies the scale factor by the fixed ratio 1.1 and
`zoom_out` divides it by 1.1, and each operation re-renders the loaded PDF
in full at the new scale. -/
theorem chichitk.C3_zoom_ratio (fs : String → List Nat) (s : chichitk.PdfState) :
    (chichitk.zoom_in fs s).scale_fact = s.scale_fact * (11 / 10 : ℚ) ∧
    (chichitk.zoom_out fs s).scale_fact = s.scale_fact / (11 / 10 : ℚ) ∧
    (chichitk.zoom_in fs s).img_object_list =
      (fs s.filename).map
        (fun p => (p, chichitk.pyInt (72 * s.zoom_fact * (s.scale_fact * (11 / 10 : ℚ))))) ∧
    (chichitk.zoom_out fs s).img_object_list =
      (fs s.filename).map
        (fun p => (p, chichitk.pyInt (72 * s.zoom_fact * (s.scale_fact / (11 / 10 : ℚ))))) :=
  ⟨rfl, rfl, rfl, rfl⟩

/-- C7: at line 96 (and 145, 152) the page rendering is performed on the
calling thread, not on the started worker thread: in the execution trace of
`Thread(target=self.render_pdf()).start()` the rendering action belongs to
the caller and the worker thread does nothing. -/
theorem chichitk.C7_render_on_calling_thread :
    (chichitk.ExecThread.caller, chichitk.PdfAction.renderPages) ∈
      chichitk.thread_start_trace ∧
    (∀ a : chichitk.PdfAction,
      (chichitk.ExecThread.worker, a) ∈ chichitk.thread_start_trace →
        a = chichitk.PdfAction.threadNoop) := by
  decide

/-- C8: `show_pdf` resets the scale factor to 1 before rendering: the
result is independent of whatever scale factor earlier zoom operations
left, the stored scale factor is 1 afterwards, and the pages are rendered
at the dpi corresponding to scale factor 1. -/
theorem chichitk.C8_show_pdf_resets_scale (fs : String → List Nat)
    (s : chichitk.PdfState) (f : String) (q : ℚ) :
    chichitk.show_pdf fs { s with scale_fact := q } f =
      chichitk.show_pdf fs s f ∧
    (chichitk.show_pdf fs s f).scale_fact = 1 ∧
    (chichitk.show_pdf fs s f).filename = f ∧
    (chichitk.show_pdf fs s f).img_object_list =
      (fs f).map (fun p => (p, chichitk.pyInt (72 * s.zoom_fact * 1))) :=
  ⟨rfl, rfl, rfl, rfl⟩
